import Mathlib

/-!
Verification of the canvas form application (src/App.tsx): a fixed catalog of
12 survey blocks, an answer store, a progress calculator, a plain-text report
builder, localStorage persistence, and keyboard navigation.

The TypeScript source is shallowly embedded: pure functions become Lean
functions over `List`-based finite maps; JavaScript string primitives
(`trim`, `includes`, `Array.join`, `padStart`) are modelled over `List Char`.
-/

set_option maxRecDepth 10000

namespace Canvas

/-- JS `String.prototype.trim`: drop surrounding whitespace. -/
def jsTrim (s : String) : String :=
  ⟨((s.data.dropWhile Char.isWhitespace).reverse.dropWhile Char.isWhitespace).reverse⟩

/-- Helper for `jsIncludes`: does `sub` occur as a contiguous run in `cs`? -/
def listIncludes (sub : List Char) : List Char → Bool
  | [] => sub.isEmpty
  | c :: rest => sub.isPrefixOf (c :: rest) || listIncludes sub rest

/-- JS `String.prototype.includes`. -/
def jsIncludes (s sub : String) : Bool :=
  listIncludes sub.data s.data

/-- JS `Array.prototype.join(sep)`. -/
def jsJoin (sep : String) : List String → String
  | [] => ""
  | [x] => x
  | x :: y :: rest => x ++ sep ++ jsJoin sep (y :: rest)

/-- JS `String(n).padStart(2, "0")` for the numbers used by the catalog
(`n ≤ 99`, so at most one pad character is needed). -/
def padTwo (n : Nat) : String :=
  if n < 10 then "0" ++ toString n else toString n

/-- Source `const KEY = "canvas_decisores_publico_v1"` (src/App.tsx line 28). -/
def KEY : String := "canvas_decisores_publico_v1"

/-- Source `type Block` (src/App.tsx lines 32-37). -/
structure Block where
  id : String
  numero : String
  titulo : String
  pregunta : String
  deriving DecidableEq, Repr, Inhabited

/-- Source `const BLOCKS` (src/App.tsx lines 39-124), strings copied verbatim. -/
def BLOCKS : List Block := [
  { id := "b1", numero := "01.", titulo := "Barreras actuales",
    pregunta := "¿Qué procesos internos (ciclos de aprobación, sistemas legados, compliance) o limitaciones presupuestales están frenando hoy la adopción de nuevas arquitecturas tecnológicas en su organización?" },
  { id := "b2", numero := "02.", titulo := "Prioridades estratégicas",
    pregunta := "¿Qué capacidades técnicas (infraestructura como código, observabilidad, resiliencia, seguridad cloud) necesita el equipo de TI para sostener y escalar la transformación digital?" },
  { id := "b3", numero := "03.", titulo := "Intereses profesionales",
    pregunta := "¿Qué áreas de especialización (microservicios, contenedores, automatización, IA operativa, analítica avanzada) son prioritarias para fortalecer el desarrollo de su equipo?" },
  { id := "b4", numero := "04.", titulo := "Riesgos percibidos",
    pregunta := "¿Qué riesgos (pérdida de datos, interrupciones, brechas de seguridad, vendor lock-in, sobrecostos) generan mayor cautela al desplegar soluciones de mediano y largo plazo?" },
  { id := "b5", numero := "05.", titulo := "Visión a futuro",
    pregunta := "¿Cómo imagina que debería funcionar el área de TI en 3–5 años para garantizar agilidad, estabilidad y escalabilidad después de estas transformaciones?" },
  { id := "b6", numero := "06.", titulo := "Incentivos y alineación",
    pregunta := "¿Qué reconocimientos o beneficios (KPIs de despliegue continuo, reducción de incidentes, certificaciones técnicas, productividad de equipos) reforzarían el compromiso de su unidad con estas iniciativas?" },
  { id := "b7", numero := "07.", titulo := "Red de influencia",
    pregunta := "¿Qué comunidades técnicas internas (comités de arquitectura, foros DevOps) o externas (Oracle User Groups, conferencias de cloud, asociaciones sectoriales) influyen más en sus decisiones de diseño e implementación?" },
  { id := "b8", numero := "08.", titulo := "Proveedores actuales",
    pregunta := "¿Qué proveedores tecnológicos o integradores (Oracle, Red Hat, AWS, Azure, Microsoft, firmas locales) han demostrado valor en proyectos similares y cómo se percibe su aporte?" },
  { id := "b9", numero := "09.", titulo := "Madurez digital",
    pregunta := "¿Cómo se evalúa actualmente el nivel de madurez digital de la organización en prácticas DevOps (CI/CD, testing automatizado, despliegue continuo, FinOps) y en adopción multicloud?" },
  { id := "b10", numero := "10.", titulo := "Motivadores clave",
    pregunta := "¿Qué beneficios (mayor agilidad de entrega, estabilidad de servicios, reducción de incidentes críticos, ahorro de costos, productividad de desarrolladores) motivan más a su equipo para acelerar estas iniciativas?" },
  { id := "b11", numero := "11.", titulo := "Criterios de éxito",
    pregunta := "¿Qué mejoras tangibles (menos fallos en producción, tiempos de recuperación más cortos, mayor velocidad de releases, reducción de TCO) deben evidenciar para considerar exitosos los proyectos?" },
  { id := "b12", numero := "12.", titulo := "Lecciones previas",
    pregunta := "¿Qué errores de proyectos anteriores (despliegues manuales, falta de rollback, integraciones fallidas, configuraciones dispersas) buscan evitar para garantizar el éxito en esta nueva etapa?" }]

/-- Source `type Answers = Record<string, string>` modelled as an association list;
absent key ≡ absent record entry. -/
abbrev Answers : Type := List (String × String)

/-- Source `type Persisted` (src/App.tsx lines 130-133). -/
structure Persisted where
  answers : List (String × String)
  completed : List String
  deriving DecidableEq, Repr

/-- JS record lookup `answers[id]` (`none` for a missing key). -/
def recordGet (m : Answers) (id : String) : Option String :=
  List.lookup id m

/-- JS object spread update `{...prev, [id]: value}`: an existing key keeps
its position and gets the new value, a new key is appended. -/
def recordSet (m : Answers) (id v : String) : Answers :=
  if m.any (fun p => p.fst == id) then
    m.map (fun p => if p.fst == id then (p.fst, v) else p)
  else
    m ++ [(id, v)]

/-! ## Progress calculator and report builder -/

/-- One summand of the `filled` reduce (src/App.tsx lines 138-141 and 263-266):
`answers[b.id]?.trim() ? 1 : 0` — the optional chain yields `undefined`
(falsy) on a missing key, and the trimmed answer is truthy iff non-empty. -/
def jsFilledTerm (answers : Answers) (b : Block) : Nat :=
  match recordGet answers b.id with
  | some s => if jsTrim s == "" then 0 else 1
  | none => 0

/-- Source `const filled = BLOCKS.reduce(...)` — shared by `buildTXTContent`
(src/App.tsx line 138) and the component memo (line 263), which are the
same reduce over the same catalog. -/
def filledOf (answers : Answers) : Nat :=
  BLOCKS.foldl (fun acc b => acc + jsFilledTerm answers b) 0

/-- Source `Math.round((filled / total) * 100)` (src/App.tsx lines 142 and 267).
`Math.round` rounds half toward +∞; for `filled ∈ [0, 12]` and `total = 12`
the double-precision value of `(filled / total) * 100` is never within
floating-point error of a half-integer (the exact values are multiples of
1/3), so the computation agrees with exact rational rounding
`⌊(filled / total) * 100 + 1 / 2⌋`, which for non-negative operands is the
integer division below (`jsRoundPct_eq_round` proves the agreement). -/
def jsRoundPct (filled total : Nat) : Nat :=
  (filled * 100 * 2 + total) / (2 * total)

/-- The `progress` figure (src/App.tsx lines 142 and 267). -/
def progressOf (answers : Answers) : Nat :=
  jsRoundPct (filledOf answers) BLOCKS.length

/-- Source `answers[b.id]?.trim() || "[Sin respuesta]"` (src/App.tsx line 152):
a missing key or an all-whitespace answer (both falsy after the optional
chain / trim) yield the placeholder. -/
def answerOrPlaceholder (answers : Answers) (id : String) : String :=
  match recordGet answers id with
  | some s => if jsTrim s == "" then "[Sin respuesta]" else jsTrim s
  | none => "[Sin respuesta]"

/-- The canvas title line (src/App.tsx line 144). -/
def titleLine : String :=
  "🗺️ Mapa Descriptivo del Cliente – Implementadores del Sector Privado"

/-- Source `Progreso: ${filled}/${total} (${progress}%)` (src/App.tsx line 145). -/
def progresoLine (filled total progress : Nat) : String :=
  "Progreso: " ++ toString filled ++ "/" ++ toString total ++
    " (" ++ toString progress ++ "%)"

/-- Source `buildTXTContent` (src/App.tsx lines 136-156): header = join of
[title, progreso, ""], then a loop pushing four lines per block, and
`header + lines.join("\n")`. -/
def buildTXTContent (answers : Answers) : String :=
  let total := BLOCKS.length
  let filled := filledOf answers
  let progress := jsRoundPct filled total
  let header := jsJoin "\n" [titleLine, progresoLine filled total progress, ""]
  let lines := BLOCKS.foldl
    (fun acc b =>
      acc ++ [b.numero ++ " " ++ b.titulo, b.pregunta,
              answerOrPlaceholder answers b.id, ""])
    ([] : List String)
  header ++ jsJoin "\n" lines

/-! ## Smoke tests (src/App.tsx lines 159-230), catalog portion -/

/-- Test 1: `BLOCKS.length === 12`. -/
def smokeBlockCount : Bool := BLOCKS.length == 12

/-- Test 2: `new Set(ids).size === ids.length`; the set size is the number
of distinct ids, i.e. the length after removing duplicates. -/
def smokeUniqueIds : Bool :=
  (BLOCKS.map (fun b => b.id)).eraseDups.length == (BLOCKS.map (fun b => b.id)).length

/-- Test 3: `b.numero === String(i + 1).padStart(2, "0") + "."` for all blocks. -/
def smokeSeqNumbers : Bool :=
  (BLOCKS.enum).all (fun p => p.snd.numero == padTwo (p.fst + 1) ++ ".")

/-- Test 4: `!!b.titulo && !!b.pregunta && b.pregunta.includes("¿")`. -/
def smokeNonEmpty : Bool :=
  BLOCKS.all (fun b =>
    !(b.titulo == "") && !(b.pregunta == "") && jsIncludes b.pregunta "¿")

/-- Test 5 (src/App.tsx lines 191-193):
`BLOCKS[0].pregunta.includes("presupuestales") &&
 BLOCKS[11].pregunta.includes("baja adopción")`. -/
def smokeSpotCheck : Bool :=
  jsIncludes ((BLOCKS.getD 0 default).pregunta) "presupuestales" &&
  jsIncludes ((BLOCKS.getD 11 default).pregunta) "baja adopción"

/-! ## localStorage and JSON model -/

/-- Left curly bracket character (written by code point). -/
def lbrace : Char := Char.ofNat 123

/-- Right curly bracket character (written by code point). -/
def rbrace : Char := Char.ofNat 125

/-- Model of `JSON.stringify` string escaping; the values exercised here contain no
control characters, so only the quote and backslash cases matter. -/
def escapeJSONChar (c : Char) : List Char :=
  if c == '"' || c == '\\' then ['\\', c] else [c]

/-- A JSON string literal as `JSON.stringify` renders it. -/
def jsonQuote (s : String) : String :=
  "\"" ++ (⟨s.data.flatMap escapeJSONChar⟩ : String) ++ "\""

/-- Model of `JSON.stringify` of a `Record<string,string>` (insertion order, no spaces). -/
def encodeAnswers (m : List (String × String)) : String :=
  (⟨[lbrace]⟩ : String) ++
    jsJoin "," (m.map (fun p => jsonQuote p.fst ++ ":" ++ jsonQuote p.snd)) ++
    (⟨[rbrace]⟩ : String)

/-- Model of `JSON.stringify` of a `string[]`. -/
def encodeCompleted (l : List String) : String :=
  "[" ++ jsJoin "," (l.map jsonQuote) ++ "]"

/-- Model of `JSON.stringify(payload)` for `Persisted` (src/App.tsx lines 199, 253). -/
def encodePersisted (p : Persisted) : String :=
  (⟨[lbrace]⟩ : String) ++ jsonQuote "answers" ++ ":" ++ encodeAnswers p.answers ++
    "," ++ jsonQuote "completed" ++ ":" ++ encodeCompleted p.completed ++
    (⟨[rbrace]⟩ : String)

/-- JSON string body parser (after the opening quote), fuel-indexed. -/
def parseStringBody (fuel : Nat) (cs : List Char) (acc : List Char) :
    Option (String × List Char) :=
  match fuel, cs with
  | 0, _ => none
  | _ + 1, [] => none
  | f + 1, c :: rest =>
    if c == '"' then some ((⟨acc.reverse⟩ : String), rest)
    else if c == '\\' then
      match rest with
      | [] => none
      | e :: rest2 => parseStringBody f rest2 (e :: acc)
    else parseStringBody f rest (c :: acc)

/-- Parse one JSON string literal. -/
def parseJString (fuel : Nat) (cs : List Char) : Option (String × List Char) :=
  match cs with
  | c :: rest => if c == '"' then parseStringBody fuel rest [] else none
  | [] => none

/-- Parse `"k":"v"` pairs separated by commas and terminated by the closing
curly bracket (which is consumed). -/
def parsePairList (fuel : Nat) (cs : List Char) :
    Option (List (String × String) × List Char) :=
  match fuel with
  | 0 => none
  | f + 1 =>
    match parseJString f cs with
    | none => none
    | some (k, r1) =>
      match r1 with
      | ':' :: r2 =>
        match parseJString f r2 with
        | none => none
        | some (v, r3) =>
          match r3 with
          | ',' :: r4 =>
            match parsePairList f r4 with
            | none => none
            | some (ps, r) => some ((k, v) :: ps, r)
          | c :: r4 => if c == rbrace then some ([(k, v)], r4) else none
          | [] => none
      | _ => none

/-- Parse a JSON object of string pairs (including the empty object). -/
def parseObj (fuel : Nat) (cs : List Char) :
    Option (List (String × String) × List Char) :=
  match cs with
  | c :: rest =>
    if c == lbrace then
      match rest with
      | c2 :: r2 => if c2 == rbrace then some ([], r2) else parsePairList fuel rest
      | [] => none
    else none
  | [] => none

/-- Parse string-array elements terminated by `]` (which is consumed). -/
def parseStrElems (fuel : Nat) (cs : List Char) :
    Option (List String × List Char) :=
  match fuel with
  | 0 => none
  | f + 1 =>
    match parseJString f cs with
    | none => none
    | some (v, r1) =>
      match r1 with
      | ',' :: r2 =>
        match parseStrElems f r2 with
        | none => none
        | some (vs, r) => some (v :: vs, r)
      | ']' :: r2 => some ([v], r2)
      | _ => none

/-- Parse a JSON array of strings (including the empty array). -/
def parseArr (fuel : Nat) (cs : List Char) : Option (List String × List Char) :=
  match cs with
  | '[' :: rest =>
    match rest with
    | ']' :: r2 => some ([], r2)
    | _ => parseStrElems fuel rest
  | _ => none

/-- Model of `JSON.parse` restricted to the canonical shape that
`encodePersisted` emits (`JSON.parse` accepts more — whitespace, other key
orders — but persistence only ever reads back its own serialization). -/
def decodePersisted (raw : String) : Option Persisted :=
  let cs := raw.data
  let fuel := cs.length + 1
  match cs with
  | c :: rest =>
    if c == lbrace then
      match parseJString fuel rest with
      | some (k1, r1) =>
        if k1 == "answers" then
          match r1 with
          | ':' :: r2 =>
            match parseObj fuel r2 with
            | some (ans, r3) =>
              match r3 with
              | ',' :: r4 =>
                match parseJString fuel r4 with
                | some (k2, r5) =>
                  if k2 == "completed" then
                    match r5 with
                    | ':' :: r6 =>
                      match parseArr fuel r6 with
                      | some (comp, r7) =>
                        match r7 with
                        | c2 :: r8 =>
                          if c2 == rbrace && r8 == [] then
                            some { answers := ans, completed := comp }
                          else none
                        | [] => none
                      | none => none
                    | _ => none
                  else none
                | none => none
              | _ => none
            | none => none
          | _ => none
        else none
      | none => none
    else none
  | [] => none

/-- Errors a browser key-value storage write can raise. -/
inductive StorageError where
  | quotaExceeded
  deriving DecidableEq, Repr

/-- Browser `localStorage` model: a string map plus a per-write quota. -/
structure JSStorage where
  data : List (String × String)
  quota : Nat
  deriving DecidableEq, Repr

/-- Model of `localStorage.setItem`: throws `QuotaExceededError` when the value does
not fit, modelled as `Except.error`. -/
def JSStorage.setItem (st : JSStorage) (k v : String) :
    Except StorageError JSStorage :=
  if v.length ≤ st.quota then
    .ok { st with data := recordSet st.data k v }
  else
    .error .quotaExceeded

/-- Model of `localStorage.getItem` (`null` for a missing key). -/
def JSStorage.getItem (st : JSStorage) (k : String) : Option String :=
  recordGet st.data k

/-! ## Component state and actions -/

/-- The three `useState` hooks of `CanvasDecisoresPublico`
(src/App.tsx lines 234-236). -/
structure CanvasState where
  answers : Answers
  completed : List String
  focusId : String
  deriving DecidableEq, Repr

/-- Initial state: empty answers and completed, focus on `BLOCKS[0].id`
(the catalog is non-empty, so the index-0 access cannot miss). -/
def initialState : CanvasState :=
  { answers := [], completed := [], focusId := (BLOCKS.getD 0 default).id }

/-- The save effect (src/App.tsx lines 252-255): serializes
`{answers, completed}` and writes it under `KEY`. Unlike the load effect,
the source has no try/catch here, so a storage error propagates out. -/
def saveEffect (st : JSStorage) (s : CanvasState) :
    Except StorageError JSStorage :=
  st.setItem KEY (encodePersisted { answers := s.answers, completed := s.completed })

/-- The load effect (src/App.tsx lines 240-249): read `KEY`, parse, and set
state; any failure is swallowed by the surrounding try/catch, leaving the
state unchanged. -/
def loadEffect (st : JSStorage) (s : CanvasState) : CanvasState :=
  match st.getItem KEY with
  | some raw =>
    match decodePersisted raw with
    | some p => { s with answers := p.answers, completed := p.completed }
    | none => s
  | none => s

/-- Source `onChange` (src/App.tsx lines 275-277):
`setAnswers(prev => ({...prev, [id]: value}))`. -/
def onChange (s : CanvasState) (id value : String) : CanvasState :=
  { s with answers := recordSet s.answers id value }

/-- The per-card "Limpiar" button (src/App.tsx lines 434-443) calls
`onChange(b.id, "")`. -/
def clearAnswer (s : CanvasState) (id : String) : CanvasState :=
  onChange s id ""

/-- Source `onToggleComplete` (src/App.tsx lines 269-273). -/
def onToggleComplete (s : CanvasState) (id : String) : CanvasState :=
  { s with completed :=
      if s.completed.contains id then s.completed.filter (fun x => !(x == id))
      else s.completed ++ [id] }

/-- The component `filled` memo (src/App.tsx lines 263-266); its dependency
array is `[answers]`, so it reads nothing but `answers`. -/
def stateFilled (s : CanvasState) : Nat := filledOf s.answers

/-- Source `BLOCKS.findIndex(b => b.id === focusId)`; JS `findIndex` returns -1
for a missing id. -/
def jsFindIndex (fid : String) : Int :=
  match BLOCKS.findIdx? (fun b => b.id == fid) with
  | some n => (n : Int)
  | none => -1

/-- ArrowDown branch of the keydown handler (src/App.tsx line 296):
`BLOCKS[Math.min(BLOCKS.length - 1, idx + 1)].id`. The clamped index always
lies in range, so the default of `getD` is unreachable. -/
def arrowDownFocus (fid : String) : String :=
  (BLOCKS.getD (min ((BLOCKS.length : Int) - 1) (jsFindIndex fid + 1)).toNat default).id

/-- ArrowUp branch of the keydown handler (src/App.tsx line 302):
`BLOCKS[Math.max(0, idx - 1)].id`. -/
def arrowUpFocus (fid : String) : String :=
  (BLOCKS.getD (max 0 (jsFindIndex fid - 1)).toNat default).id

/-- Per-card character counter (src/App.tsx lines 379-381):
`value = answers[b.id] || ""` then `count = value.trim().length`. -/
def cardCount (answers : Answers) (id : String) : Nat :=
  let value := (recordGet answers id).getD ""
  (jsTrim value).length

/-! ## Spec-side definitions (from the specification's words) -/

/-- Spec §4.3: `filled` = count of blocks whose answer, trimmed of
surrounding whitespace, is non-empty. -/
def specFilled (answers : Answers) : Nat :=
  (BLOCKS.filter (fun b => jsTrim ((recordGet answers b.id).getD "") ≠ "")).length

/-- Spec §4.4 line (c): the trimmed answer text, or the literal placeholder
when the trimmed answer is empty. -/
def specAnswerText (answers : Answers) (id : String) : String :=
  let t := jsTrim ((recordGet answers id).getD "")
  if t = "" then "[Sin respuesta]" else t

/-- The four report lines of one block per spec §4.4 step 4. -/
def specBlockLines (answers : Answers) (b : Block) : List String :=
  [b.numero ++ " " ++ b.titulo, b.pregunta, specAnswerText answers b.id, ""]

/-- The report exactly as the claim states it: title line, progress line,
a blank line, then the four lines of each block, joined by single line
breaks. -/
def claimReport (answers : Answers) : String :=
  jsJoin "\n"
    ([titleLine,
      progresoLine (filledOf answers) BLOCKS.length (progressOf answers), ""] ++
     BLOCKS.flatMap (specBlockLines answers))

/-- The report as the code actually lays it out: title line, progress line,
then immediately the four lines of each block (no blank line after the
progress line), joined by single line breaks. -/
def amendedReport (answers : Answers) : String :=
  jsJoin "\n"
    ([titleLine,
      progresoLine (filledOf answers) BLOCKS.length (progressOf answers)] ++
     BLOCKS.flatMap (specBlockLines answers))

/-- Split a document into its lines at line-break characters. -/
def splitLinesAux : List Char → List Char → List String
  | [], acc => [(⟨acc.reverse⟩ : String)]
  | c :: rest, acc =>
    if c == '\n' then (⟨acc.reverse⟩ : String) :: splitLinesAux rest []
    else splitLinesAux rest (c :: acc)

/-- The list of lines of a document. -/
def docLines (s : String) : List String := splitLinesAux s.data []

/-! ## Helper lemmas -/

theorem answerOrPlaceholder_eq_spec (answers : Answers) (id : String) :
    answerOrPlaceholder answers id = specAnswerText answers id := by
  unfold answerOrPlaceholder specAnswerText
  cases recordGet answers id with
  | none => simp [show jsTrim "" = "" from by decide]
  | some s =>
    by_cases h : jsTrim s = "" <;> simp [h]

theorem foldl_push_eq_flatMap (f : Block → List String) (l : List Block) :
    ∀ acc, List.foldl (fun acc b => acc ++ f b) acc l = acc ++ l.flatMap f := by
  induction l with
  | nil => intro acc; simp
  | cons b t ih =>
    intro acc
    simp [List.foldl_cons, List.flatMap_cons, ih, List.append_assoc]

theorem jsJoin_cons₂ (s t p x : String) (l : List String) :
    jsJoin s (t :: p :: x :: l) = t ++ s ++ (p ++ s ++ jsJoin s (x :: l)) := rfl

theorem jsJoin_split (t p : String) (L : List String) (h : L ≠ []) :
    jsJoin "\n" [t, p, ""] ++ jsJoin "\n" L = jsJoin "\n" (t :: p :: L) := by
  cases L with
  | nil => exact absurd rfl h
  | cons x l =>
    show (t ++ "\n" ++ (p ++ "\n" ++ "")) ++ jsJoin "\n" (x :: l)
        = t ++ "\n" ++ (p ++ "\n" ++ jsJoin "\n" (x :: l))
    simp [String.append_empty, String.append_assoc]

theorem flatMap_specBlockLines_ne_nil (answers : Answers) :
    BLOCKS.flatMap (specBlockLines answers) ≠ [] := by
  simp [BLOCKS, specBlockLines]

theorem foldl_filled_eq_filter (answers : Answers) (l : List Block) :
    ∀ acc, List.foldl (fun acc b => acc + jsFilledTerm answers b) acc l
      = acc + (l.filter
          (fun b => jsTrim ((recordGet answers b.id).getD "") ≠ "")).length := by
  induction l with
  | nil => intro acc; simp
  | cons b t ih =>
    intro acc
    have hterm : jsFilledTerm answers b
        = if jsTrim ((recordGet answers b.id).getD "") ≠ "" then 1 else 0 := by
      unfold jsFilledTerm
      cases recordGet answers b.id with
      | none => simp [show jsTrim "" = "" from by decide]
      | some s => by_cases h : jsTrim s = "" <;> simp [h]
    rw [List.foldl_cons, ih]
    by_cases h : jsTrim ((recordGet answers b.id).getD "") ≠ ""
    · simp [List.filter_cons, h, hterm]
      all_goals omega
    · simp [List.filter_cons, h, hterm]

theorem lookup_map_replace (id v : String) (m : Answers) :
    m.any (fun p => p.fst == id) = true →
    List.lookup id (m.map (fun p => if p.fst == id then (p.fst, v) else p))
      = some v := by
  induction m with
  | nil => intro h; simp at h
  | cons p t ih =>
    obtain ⟨k, w⟩ := p
    intro h
    simp only [beq_iff_eq] at ih
    by_cases hk : k = id
    · subst hk
      have hb : (k == k) = true := beq_self_eq_true k
      simp [List.map_cons, hb, List.lookup_cons]
    · have hb : (k == id) = false := beq_eq_false_iff_ne.mpr hk
      have hb2 : (id == k) = false := beq_eq_false_iff_ne.mpr (Ne.symm hk)
      have ht : t.any (fun p => p.fst == id) = true := by
        simp only [List.any_cons, hb, Bool.false_or] at h
        exact h
      simp [List.map_cons, hk, hb2, List.lookup_cons, ih ht]

theorem lookup_map_other (id v j : String) (hj : j ≠ id) (m : Answers) :
    List.lookup j (m.map (fun p => if p.fst == id then (p.fst, v) else p))
      = List.lookup j m := by
  induction m with
  | nil => simp
  | cons p t ih =>
    obtain ⟨k, w⟩ := p
    simp only [beq_iff_eq] at ih
    by_cases hk : k = id
    · subst hk
      have hb2 : (j == k) = false := beq_eq_false_iff_ne.mpr hj
      simp [List.map_cons, List.lookup_cons, hb2, ih]
    · by_cases hjk : j = k
      · subst hjk
        have hb2 : (j == j) = true := beq_self_eq_true j
        simp [List.map_cons, hk, List.lookup_cons, hb2]
      · have hb2 : (j == k) = false := beq_eq_false_iff_ne.mpr hjk
        simp [List.map_cons, hk, List.lookup_cons, hb2, ih]

theorem lookup_append_single_ne (id v j : String) (hj : j ≠ id) (m : Answers) :
    List.lookup j (m ++ [(id, v)]) = List.lookup j m := by
  induction m with
  | nil =>
    have hb : (j == id) = false := beq_eq_false_iff_ne.mpr hj
    simp [List.lookup_cons, hb, List.lookup]
  | cons p t ih =>
    obtain ⟨k, w⟩ := p
    by_cases hjk : j = k
    · subst hjk
      have hb : (j == j) = true := beq_self_eq_true j
      simp [List.cons_append, List.lookup_cons, hb]
    · have hb : (j == k) = false := beq_eq_false_iff_ne.mpr hjk
      simp [List.cons_append, List.lookup_cons, hb, ih]

theorem recordSet_lookup_self (m : Answers) (id v : String) :
    recordGet (recordSet m id v) id = some v := by
  unfold recordGet recordSet
  by_cases h : m.any (fun p => p.fst == id)
  · simp only [h, if_true]
    exact lookup_map_replace id v m h
  · simp only [Bool.not_eq_true] at h
    simp only [h, Bool.false_eq_true, if_false]
    induction m with
    | nil =>
      have hb : (id == id) = true := beq_self_eq_true id
      simp [List.lookup_cons, hb, List.lookup]
    | cons p t ih =>
      obtain ⟨k, w⟩ := p
      simp only [List.any_cons, Bool.or_eq_false_iff] at h
      have hb : (id == k) = false := by
        have : (k == id) = false := h.1
        exact beq_eq_false_iff_ne.mpr (Ne.symm (beq_eq_false_iff_ne.mp this))
      simp [List.cons_append, List.lookup_cons, hb, ih h.2]

theorem recordSet_lookup_other (m : Answers) (id v j : String) (hj : j ≠ id) :
    recordGet (recordSet m id v) j = recordGet m j := by
  unfold recordGet recordSet
  by_cases h : m.any (fun p => p.fst == id) <;> simp only [h]
  · simpa using lookup_map_other id v j hj m
  · simpa using lookup_append_single_ne id v j hj m

theorem filledOf_le (answers : Answers) : filledOf answers ≤ 12 := by
  unfold filledOf
  rw [foldl_filled_eq_filter answers BLOCKS 0, Nat.zero_add]
  exact le_trans (List.length_filter_le _ _) (by decide)

theorem jsRoundPct_eq_round (n : Nat) (hn : n ≤ 12) :
    (jsRoundPct n 12 : ℤ) = round ((n : ℚ) / ((12 : ℕ) : ℚ) * 100) := by
  interval_cases n <;> norm_num [jsRoundPct, round_eq]

/-! ## Claim theorems -/

/-- C1, counterexample: the Report Builder output is NOT the claimed layout.
At the empty answers map the claimed format (title line, progress line, a
blank line, then the block groups) differs from `buildTXTContent`: the code
joins the header (which already ends in a line break) directly to the block
lines, so no blank line separates the progress line from the first block. -/
theorem report_builder_blank_line_missing :
    buildTXTContent ([] : Answers) ≠ claimReport ([] : Answers) := by decide

/-- C1, amended: for every answers map, the Report Builder output is exactly
the title line, then the progress line with the Progress Calculator figures,
then immediately (no intervening blank line) for each of the 12 catalog
blocks in order: "<number> <title>", the verbatim question, the trimmed
answer or "[Sin respuesta]", and a blank line, all joined by single line
breaks. -/
theorem report_builder_layout (answers : Answers) :
    buildTXTContent answers = amendedReport answers := by
  simp only [buildTXTContent, amendedReport]
  rw [foldl_push_eq_flatMap
    (fun b => [b.numero ++ " " ++ b.titulo, b.pregunta,
               answerOrPlaceholder answers b.id, ""]) BLOCKS []]
  rw [List.nil_append]
  have hgroup : (fun b => [b.numero ++ " " ++ b.titulo, b.pregunta,
      answerOrPlaceholder answers b.id, ""]) = specBlockLines answers := by
    funext b
    simp [specBlockLines, answerOrPlaceholder_eq_spec]
  rw [hgroup, jsJoin_split _ _ _ (flatMap_specBlockLines_ne_nil answers)]
  rfl

/-- C2: for every answers map, `filled` equals the number of catalog blocks
whose trimmed answer is non-empty; the `completed` set never changes
`filled`; and `percent` equals half-up rounding of `filled / total * 100`
with `total = 12`. -/
theorem progress_calculator_correct (answers : Answers) (c c' : List String)
    (f f' : String) :
    filledOf answers = specFilled answers ∧
    stateFilled { answers := answers, completed := c, focusId := f }
      = stateFilled { answers := answers, completed := c', focusId := f' } ∧
    BLOCKS.length = 12 ∧
    (progressOf answers : ℤ)
      = round (((filledOf answers : ℚ) / (BLOCKS.length : ℚ)) * 100) := by
  refine ⟨?_, rfl, by decide, ?_⟩
  · unfold filledOf specFilled
    simpa using foldl_filled_eq_filter answers BLOCKS 0
  · have hle : filledOf answers ≤ 12 := filledOf_le answers
    have h12 : BLOCKS.length = 12 := by decide
    unfold progressOf
    rw [h12]
    exact jsRoundPct_eq_round (filledOf answers) hle

/-- The scenario answers map of spec §8: only block `b5` is set, to a
whitespace-padded string. -/
def scenarioAnswers : Answers := [("b5", "  Necesita mayor automatización  ")]

/-- C3: on the scenario map, `filled = 1`, `percent = 8`, and reading the
answer line of each block group out of the report (line `4 + 4k` of the
document, for block index `k`) gives the trimmed string for `b5` (block
index 4) and the placeholder for the other 11 blocks. -/
theorem scenario_b5_report :
    filledOf scenarioAnswers = 1 ∧ progressOf scenarioAnswers = 8 ∧
    (List.range 12).map
        (fun k => (docLines (buildTXTContent scenarioAnswers)).get? (4 + 4 * k))
      = [some "[Sin respuesta]", some "[Sin respuesta]", some "[Sin respuesta]",
         some "[Sin respuesta]", some "Necesita mayor automatización",
         some "[Sin respuesta]", some "[Sin respuesta]", some "[Sin respuesta]",
         some "[Sin respuesta]", some "[Sin respuesta]", some "[Sin respuesta]",
         some "[Sin respuesta]"] :=
  ⟨by decide, by decide, by decide⟩

/-- C4: the catalog has exactly 12 blocks, pairwise distinct ids, position
`i` (1-indexed) numbered with the zero-padded two-digit label plus a period,
and non-empty titles and questions containing the interrogative marker. -/
theorem catalog_invariants :
    BLOCKS.length = 12 ∧
    (BLOCKS.map (fun b => b.id)).Nodup ∧
    (∀ i, i < BLOCKS.length →
      (BLOCKS.get? i).map (fun b => b.numero) = some (padTwo (i + 1) ++ ".")) ∧
    (∀ b ∈ BLOCKS, b.titulo ≠ "" ∧ b.pregunta ≠ "" ∧
      jsIncludes b.pregunta "¿" = true) :=
  ⟨by decide, by decide, by decide, by decide⟩

/-- Witness for C4 at position 0 and the first catalog block. -/
theorem catalog_invariants_witness :
    (BLOCKS.get? 0).map (fun b => b.numero) = some (padTwo 1 ++ ".") ∧
    ((BLOCKS.getD 0 default).titulo ≠ "" ∧
      (BLOCKS.getD 0 default).pregunta ≠ "" ∧
      jsIncludes (BLOCKS.getD 0 default).pregunta "¿" = true) :=
  ⟨catalog_invariants.2.2.1 0 (by decide),
   catalog_invariants.2.2.2 (BLOCKS.getD 0 default) (by decide)⟩

/-- A storage whose next write exceeds the quota. -/
def zeroQuotaStorage : JSStorage := { data := [], quota := 0 }

/-- C5: the save effect is NOT guarded — the source wraps the load effect
in try/catch but performs `localStorage.setItem` bare in the save effect
(src/App.tsx lines 252-255), so a quota-exceeded error propagates out of
the save operation instead of being caught and swallowed. -/
theorem save_effect_error_propagates :
    saveEffect zeroQuotaStorage initialState
      = Except.error StorageError.quotaExceeded := rfl

/-- A storage with room for the round-trip payload. -/
def freshStorage : JSStorage := { data := [], quota := 1000 }

/-- The round-trip state of spec §8: `{answers: {b1: "ok"}, completed: ["b1"]}`. -/
def roundTripState : CanvasState :=
  { answers := [("b1", "ok")], completed := ["b1"], focusId := "b1" }

/-- C6: persisting `{answers: {b1: "ok"}, completed: ["b1"]}` (serialize,
write to storage) and immediately reloading (read, deserialize) yields an
answer store whose entry for "b1" is exactly "ok". -/
theorem persist_reload_roundtrip :
    (saveEffect freshStorage roundTripState).map
        (fun st => recordGet (loadEffect st initialState).answers "b1")
      = Except.ok (some "ok") := rfl

/-- C7: focus starts on the first catalog block; from the block at index
`i`, "move down" focuses the block at index `min 11 (i + 1)` and "move up"
the block at index `i - 1` (truncated subtraction, i.e. `max 0 (i - 1)`);
neither wraps around. -/
theorem keyboard_navigation_clamped :
    BLOCKS.length = 12 ∧
    initialState.focusId = ((BLOCKS.get? 0).map (fun b => b.id)).getD "" ∧
    ∀ i, i < BLOCKS.length →
      (BLOCKS.get? i).map (fun b => arrowDownFocus b.id)
          = (BLOCKS.get? (min 11 (i + 1))).map (fun b => b.id) ∧
        (BLOCKS.get? i).map (fun b => arrowUpFocus b.id)
          = (BLOCKS.get? (i - 1)).map (fun b => b.id) :=
  ⟨by decide, by decide, by decide⟩

/-- Witness for C7 at index 5. -/
theorem keyboard_navigation_clamped_witness :
    (BLOCKS.get? 5).map (fun b => arrowDownFocus b.id)
        = (BLOCKS.get? (min 11 (5 + 1))).map (fun b => b.id) :=
  (keyboard_navigation_clamped.2.2 5 (by decide)).1

/-- C8: clearing a block sets its answer to the empty string (not a deleted
key), leaves every other answer unchanged, and leaves the `completed` list
— in particular the cleared id's membership in it — untouched. -/
theorem clear_answer_frame (s : CanvasState) (id : String) :
    recordGet (clearAnswer s id).answers id = some "" ∧
    (∀ j, j ≠ id →
      recordGet (clearAnswer s id).answers j = recordGet s.answers j) ∧
    (clearAnswer s id).completed = s.completed := by
  refine ⟨?_, ?_, rfl⟩
  · exact recordSet_lookup_self s.answers id ""
  · intro j hj
    exact recordSet_lookup_other s.answers id "" j hj

/-- A one-answer state used by the C8 witness. -/
def oneAnswerState : CanvasState :=
  { answers := [("b1", "x")], completed := ["b1"], focusId := "b1" }

/-- Witness for C8: clearing "b1" in a one-answer state leaves "b2" alone. -/
theorem clear_answer_frame_witness :
    recordGet (clearAnswer oneAnswerState "b1").answers "b2"
      = recordGet oneAnswerState.answers "b2" :=
  (clear_answer_frame oneAnswerState "b1").2.1 "b2" (by decide)

/-- An answers map whose stored value carries surrounding whitespace. -/
def wsAnswers : Answers := [("b1", " ab ")]

/-- C9, counterexample: the displayed character count is NOT the length of
the answer as stored — for the stored value " ab " (length 4) the card
shows 2, because the source computes `value.trim().length`. -/
theorem card_count_untrimmed_false :
    ¬ (cardCount wsAnswers "b1"
        = ((recordGet wsAnswers "b1").getD "").length) := by decide

/-- C9, amended: the live character count equals the length of the current
answer after trimming surrounding whitespace (a missing answer counting as
the empty string). -/
theorem card_count_trimmed (answers : Answers) (id : String) :
    cardCount answers id
      = (((recordGet answers id).map jsTrim).getD "").length := by
  unfold cardCount
  cases h : recordGet answers id with
  | none => simp [h, show jsTrim "" = "" from by decide]
  | some s => simp [h]

/-- C10: the self-check routine does NOT validate the shipped catalog: its
four structural catalog checks pass, but the string spot-check (test 5)
evaluates to `false`, because `BLOCKS[11].pregunta` does not contain the
expected substring "baja adopción". -/
theorem smoke_catalog_spot_check_fails :
    smokeBlockCount = true ∧ smokeUniqueIds = true ∧ smokeSeqNumbers = true ∧
    smokeNonEmpty = true ∧ smokeSpotCheck = false :=
  ⟨by decide, by decide, by decide, by decide, by decide⟩

end Canvas
